import Mathlib

/-!
Shallow embedding of the `air-predict-api` CR310 datalogger ingestion service
(`models.py`, `validator.py`, `preprocessor.py`, `database.py`, `main.py`).

Machine reals are modelled as exact rationals (`ℚ`); the decimal literals
appearing in requests are taken at their decimal value.  Python `round(x, 2)`
is modelled as round-half-to-even on the scaled rational, the convention of
Python `round` on exactly representable values.  Python `datetime.strptime`
with the fixed format `%Y-%m-%d %H:%M:%S` is modelled after CPython's
`_strptime` regex semantics (4-digit year, one-or-two-digit other components,
a whitespace run for the literal space, full-string match) followed by the
`datetime` constructor's calendar validation.
-/

namespace AirQ

/-- Model of a Python/JSON value as it appears in a request dict.  `num`
covers both `int` and `float` (the code treats them alike); `bool` is kept
separate because `isinstance(True, int)` holds in Python while `True` is not
itself written as a number. -/
inductive PyVal : Type
  | num (q : ℚ)
  | bool (b : Bool)
  | str (s : String)
  | none
  deriving DecidableEq, Repr

/-- A request body: a Python dict from field name to value. -/
abbrev Dict : Type := List (String × PyVal)

/-- `data.get(k)` / `data[k]` lookup (dict keys are unique; first match). -/
def dictGet (d : Dict) (k : String) : Option PyVal :=
  (List.find? (fun p => p.1 == k) d).map Prod.snd

/-- Python `str.isspace` characters relevant to `strip` (ASCII model). -/
def pyIsSpace (c : Char) : Bool :=
  c == ' ' || c == '\t' || c == '\n' || c == '\x0d' || c == '\x0b' || c == '\x0c'

/-- Python `str.upper` on one character (ASCII model). -/
def pyUpperChar (c : Char) : Char :=
  if 'a' ≤ c && c ≤ 'z' then Char.ofNat (c.toNat - 32) else c

/-- Python `str.upper` (ASCII model). -/
def pyUpper (s : String) : String :=
  String.mk (s.data.map pyUpperChar)

/-- Python `str.strip()` with no argument: drop leading and trailing
whitespace. -/
def pyStrip (s : String) : String :=
  String.mk (((s.data.dropWhile pyIsSpace).reverse.dropWhile pyIsSpace).reverse)

/-- A parsed `datetime.datetime` value (date and time of day). -/
structure PyDateTime where
  year : ℕ
  month : ℕ
  day : ℕ
  hour : ℕ
  minute : ℕ
  second : ℕ
  deriving DecidableEq, Repr

/-- Digit value of a character. -/
def digitVal (c : Char) : ℕ := c.toNat - 48

/-- Consume exactly two digits. -/
def parse2 : List Char → Option (ℕ × List Char)
  | a :: b :: rest =>
      if a.isDigit && b.isDigit then some (10 * digitVal a + digitVal b, rest)
      else Option.none
  | _ => Option.none

/-- Consume exactly one digit. -/
def parse1 : List Char → Option (ℕ × List Char)
  | a :: rest => if a.isDigit then some (digitVal a, rest) else Option.none
  | _ => Option.none

/-- A two-digit-or-one-digit numeric field of the `_strptime` regex, with the
two-digit branch restricted to `[twoLo, twoHi]` and the one-digit branch to
values ≥ `oneLo` (the regex alternations `1[0-2]|0[1-9]|[1-9]` and friends),
with full backtracking into the continuation as `re` would do. -/
def numField (twoLo twoHi oneLo : ℕ) (cs : List Char)
    (k : ℕ → List Char → Option PyDateTime) : Option PyDateTime :=
  (match parse2 cs with
   | some (v, rest) =>
       if twoLo ≤ v && v ≤ twoHi then k v rest else Option.none
   | Option.none => Option.none)
  <|>
  (match parse1 cs with
   | some (v, rest) => if oneLo ≤ v then k v rest else Option.none
   | Option.none => Option.none)

/-- A literal character of the format string. -/
def litChar (c : Char) (cs : List Char)
    (k : List Char → Option PyDateTime) : Option PyDateTime :=
  match cs with
  | x :: rest => if x == c then k rest else Option.none
  | [] => Option.none

/-- Whitespace in the format string matches a run of one or more whitespace
characters (`\s+`). -/
def wsRun (cs : List Char) (k : List Char → Option PyDateTime) : Option PyDateTime :=
  match cs with
  | x :: rest =>
      if pyIsSpace x then k (List.dropWhile pyIsSpace rest) else Option.none
  | [] => Option.none

/-- Gregorian leap year, as used by `datetime`. -/
def isLeap (y : ℕ) : Bool :=
  y % 4 == 0 && (y % 100 != 0 || y % 400 == 0)

/-- Days in a month, as validated by the `datetime` constructor. -/
def daysInMonth (y m : ℕ) : ℕ :=
  if m == 2 then (if isLeap y then 29 else 28)
  else if m == 4 || m == 6 || m == 9 || m == 11 then 30
  else 31

/-- The `datetime(year, month, day, hour, minute, second)` constructor:
validates ranges (including that the day fits the month and the year is
positive) and otherwise raises `ValueError`. -/
def mkDateTime (y mo d h mi s : ℕ) : Option PyDateTime :=
  if 1 ≤ y && 1 ≤ mo && mo ≤ 12 && 1 ≤ d && d ≤ daysInMonth y mo
      && h ≤ 23 && mi ≤ 59 && s ≤ 59 then
    some ⟨y, mo, d, h, mi, s⟩
  else Option.none

/-- Consume exactly four digits (the `%Y` directive, regex `\d\d\d\d`). -/
def parse4 : List Char → Option (ℕ × List Char)
  | a :: b :: c :: d :: rest =>
      if a.isDigit && b.isDigit && c.isDigit && d.isDigit then
        some (1000 * digitVal a + 100 * digitVal b + 10 * digitVal c + digitVal d, rest)
      else Option.none
  | _ => Option.none

/-- `datetime.strptime(s, "%Y-%m-%d %H:%M:%S")`, returning `none` where
Python raises `ValueError`.  The whole input must be consumed. -/
def strptimeYmdHMS (s : String) : Option PyDateTime :=
  match parse4 s.data with
  | Option.none => Option.none
  | some (y, cs1) =>
    litChar '-' cs1 (fun cs2 =>
    numField 1 12 1 cs2 (fun mo cs3 =>
    litChar '-' cs3 (fun cs4 =>
    numField 1 31 1 cs4 (fun d cs5 =>
    wsRun cs5 (fun cs6 =>
    numField 0 23 0 cs6 (fun h cs7 =>
    litChar ':' cs7 (fun cs8 =>
    numField 0 59 0 cs8 (fun mi cs9 =>
    litChar ':' cs9 (fun cs10 =>
    numField 0 61 0 cs10 (fun sec cs11 =>
    if cs11 = [] then mkDateTime y mo d h mi sec else Option.none))))))))))

/-- Round to the nearest integer, ties to even — the convention of Python
`round` on exactly representable values. -/
def roundHalfEven (q : ℚ) : ℤ :=
  let f : ℤ := ⌊q⌋
  let r : ℚ := q - (f : ℚ)
  if r < 1 / 2 then f
  else if 1 / 2 < r then f + 1
  else if f % 2 = 0 then f else f + 1

/-- Python `round(x, 2)` in the rational model. -/
def round2 (q : ℚ) : ℚ := (roundHalfEven (q * 100) : ℚ) / 100

/-- Least exponent `k` with `d ∣ 10 ^ k`, searched up to 39; `none` when the
denominator is not 10-smooth (then the value has no finite decimal form). -/
def findDecExp (d : ℕ) : Option ℕ :=
  (List.range 40).find? (fun k => d ∣ 10 ^ k)

/-- Left-pad a digit string with zeros to length `k`. -/
def padZeros (k : ℕ) (s : String) : String :=
  String.mk (List.replicate (k - s.length) '0') ++ s

/-- Model of Python `str(float)` / `repr(float)` for the exact rationals of
this embedding: integral values render with a trailing `.0`, finite decimals
with their shortest decimal expansion; non-decimal rationals (unreachable
from decimal request literals) fall back to a fraction rendering. -/
def pyFloatRepr (q : ℚ) : String :=
  let sign := if q < 0 then "-" else ""
  let a : ℚ := |q|
  match findDecExp a.den with
  | some 0 => sign ++ toString a.num.natAbs ++ ".0"
  | some k =>
      let scaled : ℕ := a.num.natAbs * (10 ^ k / a.den)
      let ip := scaled / 10 ^ k
      let fp := scaled % 10 ^ k
      sign ++ toString ip ++ "." ++ padZeros k (toString fp)
  | Option.none => sign ++ toString a.num.natAbs ++ "/" ++ toString a.den

/-- Consume a nonempty run of digits, returning its value and count. -/
def parseDigits (cs : List Char) : Option (ℕ × ℕ × List Char) :=
  let run := cs.takeWhile Char.isDigit
  if run = [] then Option.none
  else some (run.foldl (fun acc c => 10 * acc + digitVal c) 0, run.length,
             cs.dropWhile Char.isDigit)

/-- Model of Python `float(str)` for plain numeric literals: optional
surrounding whitespace, optional sign, digits with an optional decimal point
and an optional exponent (the `inf`/`nan`/underscore forms of full Python are
not modelled; this branch is unreachable in the pipeline because the
structural validator rejects strings in numeric fields). -/
def pyFloatParse (s : String) : Option ℚ :=
  let cs := (pyStrip s).data
  let signed : Bool × List Char :=
    match cs with
    | '-' :: rest => (true, rest)
    | '+' :: rest => (false, rest)
    | _ => (false, cs)
  let body : Option (ℚ × List Char) :=
    match parseDigits signed.2 with
    | some (ip, _, rest1) =>
        (match rest1 with
         | '.' :: rest2 =>
             (match parseDigits rest2 with
              | some (fp, n, rest3) => some ((ip : ℚ) + (fp : ℚ) / 10 ^ n, rest3)
              | Option.none => some ((ip : ℚ), rest2))
         | _ => some ((ip : ℚ), rest1))
    | Option.none =>
        (match signed.2 with
         | '.' :: rest2 =>
             (match parseDigits rest2 with
              | some (fp, n, rest3) => some ((fp : ℚ) / 10 ^ n, rest3)
              | Option.none => Option.none)
         | _ => Option.none)
  match body with
  | Option.none => Option.none
  | some (m, rest) =>
      let withExp : Option ℚ :=
        match rest with
        | 'e' :: rest1 =>
            (match rest1 with
             | '-' :: rest2 =>
                 (match parseDigits rest2 with
                  | some (e, _, []) => some (m / 10 ^ e)
                  | _ => Option.none)
             | '+' :: rest2 =>
                 (match parseDigits rest2 with
                  | some (e, _, []) => some (m * 10 ^ e)
                  | _ => Option.none)
             | _ =>
                 (match parseDigits rest1 with
                  | some (e, _, []) => some (m * 10 ^ e)
                  | _ => Option.none))
        | [] => some m
        | _ => Option.none
      withExp.map (fun v => if signed.1 then -v else v)

/-- The twelve numeric channels of a CR310 reading. -/
inductive Chan : Type
  | SO2_ppb | H2S_ppb | Reaction_Temp | IZS_Temp | PMT_Temp | SampleFlow
  | Pressure | UVLampIntensity | Box_Temp | HVPS_V | Conv_Temp | Ozone_flow
  deriving DecidableEq, Repr

/-- Field name of a channel, as it appears in the JSON body. -/
def Chan.name : Chan → String
  | .SO2_ppb => "SO2_ppb"
  | .H2S_ppb => "H2S_ppb"
  | .Reaction_Temp => "Reaction_Temp"
  | .IZS_Temp => "IZS_Temp"
  | .PMT_Temp => "PMT_Temp"
  | .SampleFlow => "SampleFlow"
  | .Pressure => "Pressure"
  | .UVLampIntensity => "UVLampIntensity"
  | .Box_Temp => "Box_Temp"
  | .HVPS_V => "HVPS_V"
  | .Conv_Temp => "Conv_Temp"
  | .Ozone_flow => "Ozone_flow"

/-- The channels in the insertion order of `ReadingValidator.VALID_RANGES`
(also the order of `required_fields` and of the preprocessor's
`numeric_fields`). -/
def chanList : List Chan :=
  [.SO2_ppb, .H2S_ppb, .Reaction_Temp, .IZS_Temp, .PMT_Temp, .SampleFlow,
   .Pressure, .UVLampIntensity, .Box_Temp, .HVPS_V, .Conv_Temp, .Ozone_flow]

/-- `ReadingValidator.VALID_RANGES`: the (min, max) bound of each channel. -/
def VALID_RANGES : Chan → ℤ × ℤ
  | .SO2_ppb => (0, 10000)
  | .H2S_ppb => (0, 1000)
  | .Reaction_Temp => (20, 60)
  | .IZS_Temp => (20, 60)
  | .PMT_Temp => (20, 60)
  | .SampleFlow => (0, 1000)
  | .Pressure => (0, 100)
  | .UVLampIntensity => (0, 1000)
  | .Box_Temp => (20, 60)
  | .HVPS_V => (0, 1000)
  | .Conv_Temp => (20, 60)
  | .Ozone_flow => (0, 1000)

/-- Whether the pydantic field declaration carries `ge=0` (`models.py`:
`SO2_ppb`, `H2S_ppb`, `SampleFlow`, `UVLampIntensity`, `HVPS_V`,
`Ozone_flow`). -/
def Chan.hasGe0 : Chan → Bool
  | .SO2_ppb => true
  | .H2S_ppb => true
  | .SampleFlow => true
  | .UVLampIntensity => true
  | .HVPS_V => true
  | .Ozone_flow => true
  | _ => false

/-- The parsed pydantic model `CR310Reading` of `models.py`. -/
structure CR310Reading where
  equipo : String
  SO2_ppb : ℚ
  H2S_ppb : ℚ
  Reaction_Temp : ℚ
  IZS_Temp : ℚ
  PMT_Temp : ℚ
  SampleFlow : ℚ
  Pressure : ℚ
  UVLampIntensity : ℚ
  Box_Temp : ℚ
  HVPS_V : ℚ
  Conv_Temp : ℚ
  Ozone_flow : ℚ
  timestamp : String
  deriving DecidableEq, Repr

/-- `getattr(reading, field)` for the numeric channels. -/
def CR310Reading.chanVal (r : CR310Reading) : Chan → ℚ
  | .SO2_ppb => r.SO2_ppb
  | .H2S_ppb => r.H2S_ppb
  | .Reaction_Temp => r.Reaction_Temp
  | .IZS_Temp => r.IZS_Temp
  | .PMT_Temp => r.PMT_Temp
  | .SampleFlow => r.SampleFlow
  | .Pressure => r.Pressure
  | .UVLampIntensity => r.UVLampIntensity
  | .Box_Temp => r.Box_Temp
  | .HVPS_V => r.HVPS_V
  | .Conv_Temp => r.Conv_Temp
  | .Ozone_flow => r.Ozone_flow

/-- A pydantic v1 field error: (message, error type tag). -/
abbrev PydErr : Type := String × String

/-- pydantic v1 `float` field coercion: floats and ints pass through, bools
coerce to 1.0/0.0, numeric strings are parsed, `None` is refused. -/
def pydFloat : PyVal → Except PydErr ℚ
  | .num q => .ok q
  | .bool b => .ok (if b then 1 else 0)
  | .str s =>
      match pyFloatParse s with
      | some q => .ok q
      | Option.none => .error ("value is not a valid float", "type_error.float")
  | .none => .error ("none is not an allowed value", "type_error.none.not_allowed")

/-- pydantic v1 `str` field coercion: strings pass through, numbers and bools
are stringified, `None` is refused. -/
def pydStr : PyVal → Except PydErr String
  | .str s => .ok s
  | .num q => .ok (pyFloatRepr q)
  | .bool b => .ok (if b then "True" else "False")
  | .none => .error ("none is not an allowed value", "type_error.none.not_allowed")

/-- Validation of one numeric channel field: `float` coercion followed by the
declared `ge=0` constraint where present.  A missing field is
`field required`. -/
def fieldFloat (ge0 : Bool) (v : Option PyVal) : Except PydErr ℚ :=
  match v with
  | Option.none => .error ("field required", "value_error.missing")
  | some w =>
      match pydFloat w with
      | .error e => .error e
      | .ok q =>
          if ge0 && q < 0 then
            .error ("ensure this value is greater than or equal to 0",
                    "value_error.number.not_ge; limit_value=0")
          else .ok q

/-- Validation of the `equipo` field: `str` coercion, then the
`validate_equipo` validator (`if not v or len(v.strip()) == 0` fails, and the
validator returns `v.strip()`). -/
def fieldEquipo (v : Option PyVal) : Except PydErr String :=
  match v with
  | Option.none => .error ("field required", "value_error.missing")
  | some w =>
      match pydStr w with
      | .error e => .error e
      | .ok s =>
          if pyStrip s = "" then .error ("equipo cannot be empty", "value_error")
          else .ok (pyStrip s)

/-- Validation of the `timestamp` field: `str` coercion, then the
`validate_timestamp` validator (a real `strptime` parse). -/
def fieldTimestamp (v : Option PyVal) : Except PydErr String :=
  match v with
  | Option.none => .error ("field required", "value_error.missing")
  | some w =>
      match pydStr w with
      | .error e => .error e
      | .ok s =>
          if (strptimeYmdHMS s).isSome then .ok s
          else .error ("timestamp must be in format: YYYY-MM-DD HH:MM:SS", "value_error")

/-- The error list contributed by one field. -/
def collectErr {α : Type} (loc : String) : Except PydErr α → List (String × PydErr)
  | .error e => [(loc, e)]
  | .ok _ => []

/-- The pydantic v1 error list of `CR310Reading(**data)`, in field
declaration order. -/
def pydErrors (d : Dict) : List (String × PydErr) :=
  collectErr "equipo" (fieldEquipo (dictGet d "equipo"))
  ++ (chanList.map (fun c =>
        collectErr c.name (fieldFloat c.hasGe0 (dictGet d c.name)))).flatten
  ++ collectErr "timestamp" (fieldTimestamp (dictGet d "timestamp"))

/-- Rendering of a pydantic v1 `ValidationError` as `str(e)`. -/
def renderErrors (errs : List (String × PydErr)) : String :=
  toString errs.length ++ " validation error" ++ (if errs.length == 1 then "" else "s")
  ++ " for CR310Reading\n"
  ++ String.intercalate "\n"
       (errs.map (fun e => e.1 ++ "\n  " ++ e.2.1 ++ " (type=" ++ e.2.2 ++ ")"))

/-- `CR310Reading(**data)`: succeeds with the parsed model when every field
validates, otherwise raises a `ValidationError` carrying all field errors. -/
def CR310_parse (d : Dict) : Except String CR310Reading :=
  match fieldEquipo (dictGet d "equipo"),
        fieldFloat true (dictGet d "SO2_ppb"),
        fieldFloat true (dictGet d "H2S_ppb"),
        fieldFloat false (dictGet d "Reaction_Temp"),
        fieldFloat false (dictGet d "IZS_Temp"),
        fieldFloat false (dictGet d "PMT_Temp"),
        fieldFloat true (dictGet d "SampleFlow"),
        fieldFloat false (dictGet d "Pressure"),
        fieldFloat true (dictGet d "UVLampIntensity"),
        fieldFloat false (dictGet d "Box_Temp"),
        fieldFloat true (dictGet d "HVPS_V"),
        fieldFloat false (dictGet d "Conv_Temp"),
        fieldFloat true (dictGet d "Ozone_flow"),
        fieldTimestamp (dictGet d "timestamp") with
  | .ok e, .ok v1, .ok v2, .ok v3, .ok v4, .ok v5, .ok v6, .ok v7, .ok v8,
    .ok v9, .ok v10, .ok v11, .ok v12, .ok ts =>
      .ok ⟨e, v1, v2, v3, v4, v5, v6, v7, v8, v9, v10, v11, v12, ts⟩
  | _, _, _, _, _, _, _, _, _, _, _, _, _, _ =>
      .error (renderErrors (pydErrors d))

/-- Required-field order of `validate_required_fields`. -/
def requiredFields : List String :=
  "equipo" :: chanList.map Chan.name ++ ["timestamp"]

/-- `ReadingValidator.validate_required_fields`: `some msg` models the
`(False, msg)` outcome, `none` the `(True, None)` outcome. -/
def validate_required_fields (d : Dict) : Option String :=
  let missing := requiredFields.filter (fun f => (dictGet d f).isNone)
  if missing = [] then Option.none
  else some ("Missing required fields: " ++ String.intercalate ", " missing)

/-- `isinstance(v, (int, float))` — booleans count as ints in Python. -/
def isNumericVal : PyVal → Bool
  | .num _ => true
  | .bool _ => true
  | _ => false

/-- `isinstance(v, str)`. -/
def isStrVal : PyVal → Bool
  | .str _ => true
  | _ => false

/-- `ReadingValidator.validate_json_structure`: the first numeric field
present with a non-numeric value fails, then `equipo` and `timestamp` must be
strings when present.  Extra fields are tolerated. -/
def validate_json_structure (d : Dict) : Option String :=
  match chanList.findSome? (fun c =>
      match dictGet d c.name with
      | some v =>
          if isNumericVal v then Option.none
          else some ("Field '" ++ c.name ++ "' must be numeric")
      | Option.none => Option.none) with
  | some e => some e
  | Option.none =>
      match dictGet d "equipo" with
      | some v =>
          if isStrVal v then
            match dictGet d "timestamp" with
            | some w =>
                if isStrVal w then Option.none
                else some "Field 'timestamp' must be a string"
            | Option.none => Option.none
          else some "Field 'equipo' must be a string"
      | Option.none =>
          match dictGet d "timestamp" with
          | some w =>
              if isStrVal w then Option.none
              else some "Field 'timestamp' must be a string"
          | Option.none => Option.none

/-- Whether a channel value lies outside its `VALID_RANGES` bound
(`value < min_val or value > max_val`). -/
def chanOutOfRange (r : CR310Reading) (c : Chan) : Bool :=
  r.chanVal c < ((VALID_RANGES c).1 : ℚ) || ((VALID_RANGES c).2 : ℚ) < r.chanVal c

/-- The `f"{field}={value} (valid: {min_val}-{max_val})"` item of
`validate_ranges`. -/
def rangeItem (c : Chan) (v : ℚ) : String :=
  c.name ++ "=" ++ pyFloatRepr v ++ " (valid: " ++ toString (VALID_RANGES c).1
  ++ "-" ++ toString (VALID_RANGES c).2 ++ ")"

/-- `ReadingValidator.validate_ranges`: collects every out-of-range channel
(in `VALID_RANGES` order) into one combined message. -/
def validate_ranges (r : CR310Reading) : Option String :=
  let out := (chanList.filter (chanOutOfRange r)).map (fun c => rangeItem c (r.chanVal c))
  if out = [] then Option.none
  else some ("Values out of range: " ++ String.intercalate ", " out)

/-- `ReadingValidator.validate_reading`: required fields, JSON structure,
pydantic model, ranges, then the optional duplicate callback applied to the
RAW `data.get('equipo')` and `data.get('timestamp')` values. -/
def validate_reading (d : Dict)
    (check_duplicate : Option (Option PyVal → Option PyVal → Bool)) : Option String :=
  match validate_required_fields d with
  | some e => some e
  | Option.none =>
    match validate_json_structure d with
    | some e => some e
    | Option.none =>
      match CR310_parse d with
      | .error e => some ("Validation error: " ++ e)
      | .ok r =>
        match validate_ranges r with
        | some e => some e
        | Option.none =>
          match check_duplicate with
          | some cd =>
              if cd (dictGet d "equipo") (dictGet d "timestamp") then
                some "Duplicate reading detected"
              else Option.none
          | Option.none => Option.none

/-- The normalized record built by `DataPreprocessor.clean_reading` and
stored in MongoDB. -/
structure CleanedReading where
  equipo : String
  timestamp : String
  timestamp_dt : PyDateTime
  SO2_ppb : ℚ
  H2S_ppb : ℚ
  Reaction_Temp : ℚ
  IZS_Temp : ℚ
  PMT_Temp : ℚ
  SampleFlow : ℚ
  Pressure : ℚ
  UVLampIntensity : ℚ
  Box_Temp : ℚ
  HVPS_V : ℚ
  Conv_Temp : ℚ
  Ozone_flow : ℚ
  created_at : PyDateTime
  source : String
  deriving DecidableEq, Repr

/-- The stored value of a numeric channel. -/
def CleanedReading.chanVal (r : CleanedReading) : Chan → ℚ
  | .SO2_ppb => r.SO2_ppb
  | .H2S_ppb => r.H2S_ppb
  | .Reaction_Temp => r.Reaction_Temp
  | .IZS_Temp => r.IZS_Temp
  | .PMT_Temp => r.PMT_Temp
  | .SampleFlow => r.SampleFlow
  | .Pressure => r.Pressure
  | .UVLampIntensity => r.UVLampIntensity
  | .Box_Temp => r.Box_Temp
  | .HVPS_V => r.HVPS_V
  | .Conv_Temp => r.Conv_Temp
  | .Ozone_flow => r.Ozone_flow

/-- One channel of the preprocessor's numeric loop: a missing or `None` value
aborts, otherwise `round(float(value), 2)` (an unconvertible value aborts). -/
def cleanChan (d : Dict) (c : Chan) : Option ℚ :=
  match dictGet d c.name with
  | Option.none => Option.none
  | some PyVal.none => Option.none
  | some (.num q) => some (round2 q)
  | some (.bool b) => some (round2 (if b then 1 else 0))
  | some (.str s) => (pyFloatParse s).map round2

/-- `DataPreprocessor.clean_reading`: normalizes `equipo` (strip + upper),
keeps the original timestamp string next to its parsed form, rounds every
channel to 2 decimals, and stamps `created_at` (the `utcnow()` argument) and
`source = "CR310"`.  Any failure (non-string `equipo`/`timestamp`, unparseable
timestamp, missing/null/unconvertible channel) yields `none`. -/
def clean_reading (d : Dict) (now : PyDateTime) : Option CleanedReading :=
  match dictGet d "equipo" with
  | some (PyVal.str e) =>
    match dictGet d "timestamp" with
    | some (PyVal.str ts) =>
      match strptimeYmdHMS ts with
      | some tdt =>
        match cleanChan d .SO2_ppb, cleanChan d .H2S_ppb, cleanChan d .Reaction_Temp,
              cleanChan d .IZS_Temp, cleanChan d .PMT_Temp, cleanChan d .SampleFlow,
              cleanChan d .Pressure, cleanChan d .UVLampIntensity, cleanChan d .Box_Temp,
              cleanChan d .HVPS_V, cleanChan d .Conv_Temp, cleanChan d .Ozone_flow with
        | some v1, some v2, some v3, some v4, some v5, some v6, some v7, some v8,
          some v9, some v10, some v11, some v12 =>
            some ⟨pyUpper (pyStrip e), ts, tdt, v1, v2, v3, v4, v5, v6, v7, v8, v9,
                  v10, v11, v12, now, "CR310"⟩
        | _, _, _, _, _, _, _, _, _, _, _, _ => Option.none
      | Option.none => Option.none
    | _ => Option.none
  | _ => Option.none

/-- Python `max` of a nonempty list (head as the seed). -/
def listMax : List ℚ → ℚ
  | [] => 0
  | x :: xs => xs.foldl max x

/-- Python `min` of a nonempty list (head as the seed). -/
def listMin : List ℚ → ℚ
  | [] => 0
  | x :: xs => xs.foldl min x

/-- The five temperature-like channels inspected by
`remove_inconsistent_values`, in source order. -/
def tempChans : List Chan :=
  [.Reaction_Temp, .IZS_Temp, .PMT_Temp, .Box_Temp, .Conv_Temp]

/-- `DataPreprocessor.remove_inconsistent_values` at its call site in
`receive_reading`, where the argument is the cleaned record (all five
temperature fields present, so the `None`-filter and the fewer-than-two
branch of the source are vacuous): consistent iff
`max(temps) - min(temps) <= 30`. -/
def remove_inconsistent_values (r : CleanedReading) : Bool :=
  let temps : List ℚ := tempChans.map r.chanVal
  decide (listMax temps - listMin temps ≤ 30)

/-- The MongoDB collection, with its unique index on
`(equipo, timestamp)`. -/
structure Store where
  rows : List CleanedReading
  deriving DecidableEq, Repr

/-- Whether a row with the given `(equipo, timestamp)` pair exists — the
unique index's conflict test. -/
def hasKey (s : Store) (e t : String) : Bool :=
  s.rows.any (fun r => r.equipo == e && r.timestamp == t)

/-- `MongoDBClient.insert_reading`: `some` of the grown store on success,
`none` for the `DuplicateKeyError → False` outcome. -/
def insert_reading (s : Store) (r : CleanedReading) : Option Store :=
  if hasKey s r.equipo r.timestamp then Option.none
  else some ⟨s.rows ++ [r]⟩

/-- `MongoDBClient.is_duplicate`: `count_documents({"equipo": e,
"timestamp": t}) > 0` against the raw request values. -/
def is_duplicate (s : Store) (e t : Option PyVal) : Bool :=
  s.rows.any (fun r => some (PyVal.str r.equipo) == e && some (PyVal.str r.timestamp) == t)

/-- The Mongo filter of `MongoDBClient.get_readings`: exact `equipo` match
and an inclusive `[start_date, end_date]` window on the timestamp string
(Python truthiness: `None` or an empty string disables a clause). -/
def matchesQuery (equipo start_date end_date : Option String) (r : CleanedReading) : Bool :=
  (match equipo with
   | some e => if e = "" then true else r.equipo == e
   | Option.none => true)
  && (match start_date with
      | some sd => if sd = "" then true else decide (sd ≤ r.timestamp)
      | Option.none => true)
  && (match end_date with
      | some ed => if ed = "" then true else decide (r.timestamp ≤ ed)
      | Option.none => true)

/-- Insert into a list sorted by timestamp descending. -/
def insertDesc (r : CleanedReading) : List CleanedReading → List CleanedReading
  | [] => [r]
  | x :: xs =>
      if r.timestamp ≤ x.timestamp then x :: insertDesc r xs else r :: x :: xs

/-- `sort("timestamp", -1)`: sort by timestamp descending (ties in a fixed
arbitrary order, as Mongo promises no more). -/
def sortDesc : List CleanedReading → List CleanedReading
  | [] => []
  | x :: xs => insertDesc x (sortDesc xs)

/-- `MongoDBClient.get_readings`: filter, count the total, then
`sort.skip(offset).limit(limit)` for the page. -/
def get_readings (s : Store) (equipo start_date end_date : Option String)
    (limit offset : ℕ) : List CleanedReading × ℕ :=
  let q := s.rows.filter (matchesQuery equipo start_date end_date)
  let total := q.length
  let readings := ((sortDesc q).drop offset).take limit
  (readings, total)

/-- Outcome of `POST /api/v1/readings`: the grown store on HTTP 200, or the
HTTP error code with its `detail` string. -/
inductive Outcome : Type
  | stored (s : Store)
  | rejected (code : ℕ) (detail : String)
  deriving DecidableEq, Repr

/-- `receive_reading` of `main.py` (with a live store): validation with the
store-backed duplicate callback, preprocessing, the consistency check on the
cleaned record, then the constrained insert. -/
def receive_reading (s : Store) (d : Dict) (now : PyDateTime) : Outcome :=
  match validate_reading d (some (fun e t => is_duplicate s e t)) with
  | some err => .rejected 400 err
  | Option.none =>
    match clean_reading d now with
    | Option.none => .rejected 400 "Data cleaning failed: null or inconsistent values detected"
    | some cleaned =>
      if remove_inconsistent_values cleaned then
        match insert_reading s cleaned with
        | some s2 => .stored s2
        | Option.none => .rejected 400 "Duplicate reading detected"
      else .rejected 400 "Inconsistent values detected in reading"

/-- Outcome of `GET /api/v1/readings`: the data page with its count and
total, or the FastAPI parameter-validation failure. -/
inductive QueryOutcome : Type
  | ok (data : List CleanedReading) (count total : ℕ)
  | validationFailure (code : ℕ)
  deriving DecidableEq, Repr

/-- `get_readings` of `main.py` including the routing layer's declared
constraints `Query(..., ge=1, le=1000)` on `limit` and `Query(..., ge=0)` on
`offset`: FastAPI rejects out-of-bounds values with HTTP 422 before the
handler runs; in-bounds values are delegated unmodified to the store
query. -/
def get_readings_endpoint (s : Store) (equipo start_date end_date : Option String)
    (limit offset : ℤ) : QueryOutcome :=
  if limit < 1 || 1000 < limit || offset < 0 then .validationFailure 422
  else
    let res := get_readings s equipo start_date end_date limit.toNat offset.toNat
    .ok res.1 res.1.length res.2

/-- Modelled from the spec: a timestamp string "matches the exact zero-padded
pattern `YYYY-MM-DD HH:MM:SS`" — exactly 19 characters, digits in every
component position, each component fully zero-padded, with the literal `-`,
space and `:` separators. -/
def specExactPattern (s : String) : Bool :=
  match s.data with
  | [y1, y2, y3, y4, c1, m1, m2, c2, d1, d2, c3, h1, h2, c4, n1, n2, c5, p1, p2] =>
      y1.isDigit && y2.isDigit && y3.isDigit && y4.isDigit && c1 == '-'
      && m1.isDigit && m2.isDigit && c2 == '-' && d1.isDigit && d2.isDigit
      && c3 == ' ' && h1.isDigit && h2.isDigit && c4 == ':' && n1.isDigit
      && n2.isDigit && c5 == ':' && p1.isDigit && p2.isDigit
  | _ => false

/-- The empty collection. -/
def store0 : Store := ⟨[]⟩

/-- A fixed ingestion instant for the concrete runs. -/
def now0 : PyDateTime := ⟨2025, 10, 27, 18, 30, 5⟩

/-- A later ingestion instant. -/
def now1 : PyDateTime := ⟨2025, 10, 27, 18, 30, 9⟩

/-- The example reading of `models.py` (`schema_extra`), as a request
body. -/
def baseDict : Dict :=
  [("equipo", .str "T101"), ("SO2_ppb", .num 25.43), ("H2S_ppb", .num 2.18),
   ("Reaction_Temp", .num 35.0), ("IZS_Temp", .num 34.2), ("PMT_Temp", .num 36.1),
   ("SampleFlow", .num 452.3), ("Pressure", .num 29.76), ("UVLampIntensity", .num 403.5),
   ("Box_Temp", .num 33.7), ("HVPS_V", .num 671.2), ("Conv_Temp", .num 35.9),
   ("Ozone_flow", .num 480.5), ("timestamp", .str "2025-10-27 18:30:00")]

/-- The record `clean_reading` produces from `baseDict` at `now0`. -/
def baseCleaned : CleanedReading :=
  ⟨"T101", "2025-10-27 18:30:00", ⟨2025, 10, 27, 18, 30, 0⟩,
   25.43, 2.18, 35, 34.2, 36.1, 452.3, 29.76, 403.5, 33.7, 671.2, 35.9, 480.5,
   now0, "CR310"⟩

/-- A valid reading whose raw temperature spread is 30.001 (> 30) while the
rounded spread is exactly 30. -/
def spreadDictC2 : Dict :=
  [("equipo", .str "T101"), ("SO2_ppb", .num 25.43), ("H2S_ppb", .num 2.18),
   ("Reaction_Temp", .num 20.002), ("IZS_Temp", .num 34.2), ("PMT_Temp", .num 36.1),
   ("SampleFlow", .num 452.3), ("Pressure", .num 29.76), ("UVLampIntensity", .num 403.5),
   ("Box_Temp", .num 33.7), ("HVPS_V", .num 671.2), ("Conv_Temp", .num 50.003),
   ("Ozone_flow", .num 480.5), ("timestamp", .str "2025-10-27 18:30:00")]

/-- A valid reading whose raw temperature spread is 30.003 (> 30), every
temperature within [20, 60], while the rounded spread is exactly 30. -/
def spreadDictC7 : Dict :=
  [("equipo", .str "T101"), ("SO2_ppb", .num 25.43), ("H2S_ppb", .num 2.18),
   ("Reaction_Temp", .num 20.001), ("IZS_Temp", .num 34.2), ("PMT_Temp", .num 36.1),
   ("SampleFlow", .num 452.3), ("Pressure", .num 29.76), ("UVLampIntensity", .num 403.5),
   ("Box_Temp", .num 33.7), ("HVPS_V", .num 671.2), ("Conv_Temp", .num 50.004),
   ("Ozone_flow", .num 480.5), ("timestamp", .str "2025-10-27 18:30:00")]

/-- A reading whose cleaned temperature spread exceeds 30 after rounding. -/
def spreadDictHigh : Dict :=
  [("equipo", .str "T101"), ("SO2_ppb", .num 25.43), ("H2S_ppb", .num 2.18),
   ("Reaction_Temp", .num 20.0), ("IZS_Temp", .num 34.2), ("PMT_Temp", .num 36.1),
   ("SampleFlow", .num 452.3), ("Pressure", .num 29.76), ("UVLampIntensity", .num 403.5),
   ("Box_Temp", .num 33.7), ("HVPS_V", .num 671.2), ("Conv_Temp", .num 50.01),
   ("Ozone_flow", .num 480.5), ("timestamp", .str "2025-10-27 18:30:00")]

/-- A structurally well-typed reading with a negative `SO2_ppb` (outside its
Range Table bound [0, 10000]). -/
def negDict : Dict :=
  [("equipo", .str "T101"), ("SO2_ppb", .num (-1)), ("H2S_ppb", .num 2.18),
   ("Reaction_Temp", .num 35.0), ("IZS_Temp", .num 34.2), ("PMT_Temp", .num 36.1),
   ("SampleFlow", .num 452.3), ("Pressure", .num 29.76), ("UVLampIntensity", .num 403.5),
   ("Box_Temp", .num 33.7), ("HVPS_V", .num 671.2), ("Conv_Temp", .num 35.9),
   ("Ozone_flow", .num 480.5), ("timestamp", .str "2025-10-27 18:30:00")]

/-- A valid reading with `Reaction_Temp` below its [20, 60] bound. -/
def lowTempDict : Dict :=
  [("equipo", .str "T101"), ("SO2_ppb", .num 25.43), ("H2S_ppb", .num 2.18),
   ("Reaction_Temp", .num 10.0), ("IZS_Temp", .num 34.2), ("PMT_Temp", .num 36.1),
   ("SampleFlow", .num 452.3), ("Pressure", .num 29.76), ("UVLampIntensity", .num 403.5),
   ("Box_Temp", .num 33.7), ("HVPS_V", .num 671.2), ("Conv_Temp", .num 35.9),
   ("Ozone_flow", .num 480.5), ("timestamp", .str "2025-10-27 18:30:00")]

/-- A valid reading with a non-zero-padded month in its timestamp. -/
def oddTsDict : Dict :=
  [("equipo", .str "T101"), ("SO2_ppb", .num 25.43), ("H2S_ppb", .num 2.18),
   ("Reaction_Temp", .num 35.0), ("IZS_Temp", .num 34.2), ("PMT_Temp", .num 36.1),
   ("SampleFlow", .num 452.3), ("Pressure", .num 29.76), ("UVLampIntensity", .num 403.5),
   ("Box_Temp", .num 33.7), ("HVPS_V", .num 671.2), ("Conv_Temp", .num 35.9),
   ("Ozone_flow", .num 480.5), ("timestamp", .str "2025-1-02 18:30:00")]

/-- A reading with an unparseable timestamp. -/
def badTsDict : Dict :=
  [("equipo", .str "T101"), ("SO2_ppb", .num 25.43), ("H2S_ppb", .num 2.18),
   ("Reaction_Temp", .num 35.0), ("IZS_Temp", .num 34.2), ("PMT_Temp", .num 36.1),
   ("SampleFlow", .num 452.3), ("Pressure", .num 29.76), ("UVLampIntensity", .num 403.5),
   ("Box_Temp", .num 33.7), ("HVPS_V", .num 671.2), ("Conv_Temp", .num 35.9),
   ("Ozone_flow", .num 480.5), ("timestamp", .str "27/10/2025")]

/-- A valid reading with a lowercase, padded `equipo`. -/
def lcDict : Dict :=
  [("equipo", .str " t101 "), ("SO2_ppb", .num 25.43), ("H2S_ppb", .num 2.18),
   ("Reaction_Temp", .num 35.0), ("IZS_Temp", .num 34.2), ("PMT_Temp", .num 36.1),
   ("SampleFlow", .num 452.3), ("Pressure", .num 29.76), ("UVLampIntensity", .num 403.5),
   ("Box_Temp", .num 33.7), ("HVPS_V", .num 671.2), ("Conv_Temp", .num 35.9),
   ("Ozone_flow", .num 480.5), ("timestamp", .str "2025-10-27 18:30:00")]

/-- The record `clean_reading` produces from `lcDict` at `now0`. -/
def lcCleaned : CleanedReading :=
  ⟨"T101", "2025-10-27 18:30:00", ⟨2025, 10, 27, 18, 30, 0⟩,
   25.43, 2.18, 35, 34.2, 36.1, 452.3, 29.76, 403.5, 33.7, 671.2, 35.9, 480.5,
   now0, "CR310"⟩

/-- A valid reading with a boolean supplied for the numeric `Pressure`
channel. -/
def boolDict : Dict :=
  [("equipo", .str "T101"), ("SO2_ppb", .num 25.43), ("H2S_ppb", .num 2.18),
   ("Reaction_Temp", .num 35.0), ("IZS_Temp", .num 34.2), ("PMT_Temp", .num 36.1),
   ("SampleFlow", .num 452.3), ("Pressure", .bool true), ("UVLampIntensity", .num 403.5),
   ("Box_Temp", .num 33.7), ("HVPS_V", .num 671.2), ("Conv_Temp", .num 35.9),
   ("Ozone_flow", .num 480.5), ("timestamp", .str "2025-10-27 18:30:00")]

/-- A store already holding the canonical record of `lcDict`. -/
def storeC10 : Store := ⟨[lcCleaned]⟩

/-- The record `clean_reading` produces from `spreadDictHigh` at `now0`. -/
def spreadHighCleaned : CleanedReading :=
  ⟨"T101", "2025-10-27 18:30:00", ⟨2025, 10, 27, 18, 30, 0⟩,
   25.43, 2.18, 20, 34.2, 36.1, 452.3, 29.76, 403.5, 33.7, 671.2, 50.01, 480.5,
   now0, "CR310"⟩

/-- The record `clean_reading` produces from `boolDict` at `now0`
(`Pressure` coerced to 1.0). -/
def boolCleaned : CleanedReading :=
  ⟨"T101", "2025-10-27 18:30:00", ⟨2025, 10, 27, 18, 30, 0⟩,
   25.43, 2.18, 35, 34.2, 36.1, 452.3, 1, 403.5, 33.7, 671.2, 35.9, 480.5,
   now0, "CR310"⟩

/-- The record `clean_reading` produces from `lcDict` at `now1`. -/
def lcCleaned1 : CleanedReading :=
  ⟨"T101", "2025-10-27 18:30:00", ⟨2025, 10, 27, 18, 30, 0⟩,
   25.43, 2.18, 35, 34.2, 36.1, 452.3, 29.76, 403.5, 33.7, 671.2, 35.9, 480.5,
   now1, "CR310"⟩

/-- The pydantic model parsed from `lowTempDict`. -/
def lowTempParsed : CR310Reading :=
  ⟨"T101", 25.43, 2.18, 10, 34.2, 36.1, 452.3, 29.76, 403.5, 33.7, 671.2, 35.9,
   480.5, "2025-10-27 18:30:00"⟩

/-! ## Helper lemmas -/

lemma length_insertDesc (r : CleanedReading) (l : List CleanedReading) :
    (insertDesc r l).length = l.length + 1 := by
  induction l with
  | nil => rfl
  | cons x xs ih =>
      unfold insertDesc
      by_cases h : r.timestamp ≤ x.timestamp
      · simp [h, ih]
      · simp [h]

lemma length_sortDesc (l : List CleanedReading) :
    (sortDesc l).length = l.length := by
  induction l with
  | nil => rfl
  | cons x xs ih => simp [sortDesc, length_insertDesc, ih]

lemma validate_reading_split (d : Dict) (f : Option PyVal → Option PyVal → Bool) :
    validate_reading d (some f) =
      match validate_reading d Option.none with
      | some e => some e
      | Option.none =>
          if f (dictGet d "equipo") (dictGet d "timestamp") then
            some "Duplicate reading detected"
          else Option.none := by
  unfold validate_reading
  cases h1 : validate_required_fields d with
  | some e => simp
  | none =>
    cases h2 : validate_json_structure d with
    | some e => simp
    | none =>
      cases h3 : CR310_parse d with
      | error e => simp
      | ok r =>
        cases h4 : validate_ranges r with
        | some e => simp [h4]
        | none =>
            by_cases hf : f (dictGet d "equipo") (dictGet d "timestamp") <;>
              simp [h4, hf]

lemma validate_some_eq_none {d : Dict} {f : Option PyVal → Option PyVal → Bool}
    (h : validate_reading d (some f) = Option.none) :
    validate_reading d Option.none = Option.none ∧
    f (dictGet d "equipo") (dictGet d "timestamp") = false := by
  rw [validate_reading_split] at h
  cases hv : validate_reading d Option.none with
  | some e => rw [hv] at h; exact absurd h (by simp)
  | none =>
    rw [hv] at h
    refine ⟨rfl, ?_⟩
    by_cases hf : f (dictGet d "equipo") (dictGet d "timestamp")
    · rw [if_pos hf] at h; exact absurd h (by simp)
    · exact Bool.eq_false_iff.mpr hf

lemma validate_none_of_parts {d : Dict} {f : Option PyVal → Option PyVal → Bool}
    (h1 : validate_reading d Option.none = Option.none)
    (h2 : f (dictGet d "equipo") (dictGet d "timestamp") = false) :
    validate_reading d (some f) = Option.none := by
  rw [validate_reading_split, h1, h2]
  rfl

lemma validate_dup_of_parts {d : Dict} {f : Option PyVal → Option PyVal → Bool}
    (h1 : validate_reading d Option.none = Option.none)
    (h2 : f (dictGet d "equipo") (dictGet d "timestamp") = true) :
    validate_reading d (some f) = some "Duplicate reading detected" := by
  rw [validate_reading_split, h1, h2]
  rfl

lemma validate_plain_parts {d : Dict}
    (h : validate_reading d Option.none = Option.none) :
    validate_required_fields d = Option.none ∧
    validate_json_structure d = Option.none ∧
    ∃ r, CR310_parse d = .ok r ∧ validate_ranges r = Option.none := by
  unfold validate_reading at h
  cases h1 : validate_required_fields d with
  | some e => simp only [h1] at h; exact Option.noConfusion h
  | none =>
    simp only [h1] at h
    cases h2 : validate_json_structure d with
    | some e => simp only [h2] at h; exact Option.noConfusion h
    | none =>
      simp only [h2] at h
      cases h3 : CR310_parse d with
      | error e => simp only [h3] at h; exact Option.noConfusion h
      | ok r =>
        simp only [h3] at h
        cases h4 : validate_ranges r with
        | some e => simp only [h4] at h; exact Option.noConfusion h
        | none => exact ⟨rfl, rfl, r, rfl, h4⟩

lemma clean_reading_created_at (d : Dict) (n1 n2 : PyDateTime) :
    clean_reading d n2 =
      (clean_reading d n1).map (fun c => { c with created_at := n2 }) := by
  unfold clean_reading
  split <;> try rfl
  split <;> try rfl
  split <;> try rfl
  cases cleanChan d Chan.SO2_ppb with
  | none => rfl
  | some v1 =>
  cases cleanChan d Chan.H2S_ppb with
  | none => rfl
  | some v2 =>
  cases cleanChan d Chan.Reaction_Temp with
  | none => rfl
  | some v3 =>
  cases cleanChan d Chan.IZS_Temp with
  | none => rfl
  | some v4 =>
  cases cleanChan d Chan.PMT_Temp with
  | none => rfl
  | some v5 =>
  cases cleanChan d Chan.SampleFlow with
  | none => rfl
  | some v6 =>
  cases cleanChan d Chan.Pressure with
  | none => rfl
  | some v7 =>
  cases cleanChan d Chan.UVLampIntensity with
  | none => rfl
  | some v8 =>
  cases cleanChan d Chan.Box_Temp with
  | none => rfl
  | some v9 =>
  cases cleanChan d Chan.HVPS_V with
  | none => rfl
  | some v10 =>
  cases cleanChan d Chan.Conv_Temp with
  | none => rfl
  | some v11 =>
  cases cleanChan d Chan.Ozone_flow with
  | none => rfl
  | some v12 => rfl

lemma clean_some_inv {d : Dict} {now : PyDateTime} {c : CleanedReading}
    (h : clean_reading d now = some c) :
    ∃ e ts, dictGet d "equipo" = some (.str e) ∧
      dictGet d "timestamp" = some (.str ts) ∧
      strptimeYmdHMS ts = some c.timestamp_dt ∧
      c.equipo = pyUpper (pyStrip e) ∧ c.timestamp = ts ∧
      c.created_at = now ∧ c.source = "CR310" ∧
      ∀ ch, cleanChan d ch = some (c.chanVal ch) := by
  unfold clean_reading at h
  split at h <;> try exact Option.noConfusion h
  split at h <;> try exact Option.noConfusion h
  split at h <;> try exact Option.noConfusion h
  split at h <;> try exact Option.noConfusion h
  cases h
  refine ⟨_, _, ?_, ?_, ?_, rfl, rfl, rfl, rfl, ?_⟩
  · assumption
  · assumption
  · assumption
  · intro ch
    cases ch <;> assumption

lemma receive_stored_inv {s : Store} {d : Dict} {now : PyDateTime} {s2 : Store}
    (h : receive_reading s d now = .stored s2) :
    validate_reading d (some (fun e t => is_duplicate s e t)) = Option.none ∧
    ∃ c, clean_reading d now = some c ∧ remove_inconsistent_values c = true ∧
      hasKey s c.equipo c.timestamp = false ∧ s2 = ⟨s.rows ++ [c]⟩ := by
  unfold receive_reading at h
  split at h
  · exact Outcome.noConfusion h
  · rename_i hv
    split at h
    · exact Outcome.noConfusion h
    · rename_i c hc
      split at h
      · rename_i hr
        cases hins : insert_reading s c with
        | none => rw [hins] at h; exact Outcome.noConfusion h
        | some s3 =>
          rw [hins] at h
          unfold insert_reading at hins
          split at hins
          · exact Option.noConfusion hins
          · rename_i hk
            cases hins
            cases h
            exact ⟨hv, c, hc, hr, by simpa using hk, rfl⟩
      · exact Outcome.noConfusion h

lemma receive_of_parts {s : Store} {d : Dict} {now : PyDateTime} {c : CleanedReading}
    (hv : validate_reading d (some (fun e t => is_duplicate s e t)) = Option.none)
    (hc : clean_reading d now = some c)
    (hr : remove_inconsistent_values c = true)
    (hk : hasKey s c.equipo c.timestamp = false) :
    receive_reading s d now = .stored ⟨s.rows ++ [c]⟩ := by
  unfold receive_reading insert_reading
  simp [hv, hc, hr, hk]

/-! ## C1 -/

/-- C1: once a reading has been stored, re-ingesting the identical raw
reading always fails with the duplicate-kind rejection — whether the advisory
pre-check (`validate_reading`'s `check_duplicate` callback) or the store's
unique-index insert (`insert_reading` returning the duplicate outcome)
catches it — and no reading carrying the identical raw
`(equipo, timestamp)` pair is ever stored a second time. -/
theorem C1_duplicate_reingest (s : Store) (d : Dict) (now now2 : PyDateTime)
    (s1 : Store) (h : receive_reading s d now = .stored s1) :
    receive_reading s1 d now2 = .rejected 400 "Duplicate reading detected" ∧
    ∀ d2 now3 s2, dictGet d2 "equipo" = dictGet d "equipo" →
      dictGet d2 "timestamp" = dictGet d "timestamp" →
      receive_reading s1 d2 now3 ≠ .stored s2 := by
  obtain ⟨hv, c, hc, hr, hk, hs1⟩ := receive_stored_inv h
  subst hs1
  obtain ⟨hpre, hdup⟩ := validate_some_eq_none hv
  obtain ⟨e, ts, he, ht, hp, heq, hts, hca, hsrc, hch⟩ := clean_some_inv hc
  have hc2 : clean_reading d now2 = some { c with created_at := now2 } := by
    rw [clean_reading_created_at d now now2, hc]; rfl
  have hk2 : hasKey ⟨s.rows ++ [c]⟩ c.equipo c.timestamp = true := by
    unfold hasKey
    simp only [List.any_append, Bool.or_eq_true, List.any_cons, List.any_nil,
               Bool.or_false]
    right
    simp
  constructor
  · by_cases hd : is_duplicate ⟨s.rows ++ [c]⟩ (dictGet d "equipo")
        (dictGet d "timestamp") = true
    · have hval := validate_dup_of_parts hpre
        (f := fun e t => is_duplicate ⟨s.rows ++ [c]⟩ e t) hd
      unfold receive_reading
      rw [hval]
    · have hdf : is_duplicate ⟨s.rows ++ [c]⟩ (dictGet d "equipo")
          (dictGet d "timestamp") = false := by simpa using hd
      have hval := validate_none_of_parts hpre
        (f := fun e t => is_duplicate ⟨s.rows ++ [c]⟩ e t) hdf
      have hr2 : remove_inconsistent_values { c with created_at := now2 } = true := hr
      unfold receive_reading insert_reading
      simp [hval, hc2, hr2, hk2]
  · intro d2 now3 s2 he2 ht2 hcontra
    obtain ⟨hv2, c2, hc2b, hr2b, hk2b, hs2⟩ := receive_stored_inv hcontra
    obtain ⟨e2, ts2, he2b, ht2b, hp2, heq2, hts2, hca2, hsrc2, hch2⟩ :=
      clean_some_inv hc2b
    have hEE : e2 = e := by
      have h12 : some (PyVal.str e2) = some (PyVal.str e) :=
        he2b.symm.trans (he2.trans he)
      simpa using h12
    have hTT : ts2 = ts := by
      have h12 : some (PyVal.str ts2) = some (PyVal.str ts) :=
        ht2b.symm.trans (ht2.trans ht)
      simpa using h12
    have hkey_e : c2.equipo = c.equipo := by rw [heq2, heq, hEE]
    have hkey_t : c2.timestamp = c.timestamp := by rw [hts2, hts, hTT]
    have hkc : hasKey ⟨s.rows ++ [c]⟩ c2.equipo c2.timestamp = true := by
      rw [hkey_e, hkey_t]; exact hk2
    rw [hk2b] at hkc
    exact Bool.noConfusion hkc

/-- Witness for C1: the concrete example reading, stored once, is rejected
as a duplicate on the second ingestion. -/
theorem C1_witness :
    receive_reading ⟨store0.rows ++ [baseCleaned]⟩ baseDict now1 =
      .rejected 400 "Duplicate reading detected" :=
  (C1_duplicate_reingest store0 baseDict now0 now1 ⟨store0.rows ++ [baseCleaned]⟩
    (by with_unfolding_all rfl)).1

lemma pyUpper_eq_empty {t : String} (h : pyUpper t = "") : t = "" := by
  unfold pyUpper at h
  have hdata : t.data.map pyUpperChar = [] := congrArg String.data h
  have : t.data = [] := List.map_eq_nil_iff.mp hdata
  cases t
  simp_all

lemma parse_ok_strip_ne {d : Dict} {r : CR310Reading} {e : String}
    (hpk : CR310_parse d = .ok r)
    (he : dictGet d "equipo" = some (PyVal.str e)) : pyStrip e ≠ "" := by
  intro hs
  unfold CR310_parse at hpk
  split at hpk
  · have hEq : ∃ x, fieldEquipo (dictGet d "equipo") = Except.ok x :=
      ⟨_, by assumption⟩
    obtain ⟨x, hx⟩ := hEq
    rw [he] at hx
    simp [fieldEquipo, pydStr, hs] at hx
  · exact Except.noConfusion hpk

/-! ## C6 -/

/-- C6: a valid reading with a fresh pair is ingested; the stored record has
`equipo` equal to the input trimmed and upper-cased, every numeric channel
equal to the input value rounded to 2 decimals, `source = "CR310"` and a
system-stamped `created_at`; a subsequent query filtered by the upper-cased
`equipo` returns exactly that one matching record. -/
theorem C6_fresh_ingest_roundtrip (s : Store) (d : Dict) (now : PyDateTime)
    (e : String) (c : CleanedReading)
    (he : dictGet d "equipo" = some (.str e))
    (hv : validate_reading d (some (fun a b => is_duplicate s a b)) = Option.none)
    (hc : clean_reading d now = some c)
    (hcons : remove_inconsistent_values c = true)
    (hfresh : ∀ r ∈ s.rows, r.equipo ≠ pyUpper (pyStrip e)) :
    receive_reading s d now = .stored ⟨s.rows ++ [c]⟩ ∧
    c.equipo = pyUpper (pyStrip e) ∧
    c.source = "CR310" ∧ c.created_at = now ∧
    (∀ ch q, dictGet d ch.name = some (PyVal.num q) → c.chanVal ch = round2 q) ∧
    get_readings ⟨s.rows ++ [c]⟩ (some (pyUpper (pyStrip e))) Option.none Option.none
      100 0 = ([c], 1) := by
  obtain ⟨e0, ts, he0, ht, hp, heq0, hts, hca, hsrc, hch⟩ := clean_some_inv hc
  have hEE : e0 = e := by
    have h12 := he0.symm.trans he
    simpa using h12
  subst hEE
  have hkE : c.equipo = pyUpper (pyStrip e0) := heq0
  obtain ⟨hpre, hdup⟩ := validate_some_eq_none hv
  obtain ⟨hreq, hstr, r, hpk, hrg⟩ := validate_plain_parts hpre
  have hse : pyStrip e0 ≠ "" := parse_ok_strip_ne hpk he
  have hNE : pyUpper (pyStrip e0) ≠ "" := fun hcontra => hse (pyUpper_eq_empty hcontra)
  have hk : hasKey s c.equipo c.timestamp = false := by
    unfold hasKey
    rw [List.any_eq_false]
    intro x hx
    simp only [Bool.and_eq_true, beq_iff_eq, not_and]
    intro hre _
    exact hfresh x hx (hre.trans hkE)
  have hstored := receive_of_parts hv hc hcons hk
  refine ⟨hstored, hkE, hsrc, hca, ?_, ?_⟩
  · intro ch q hq
    have h1 := hch ch
    have h2 : cleanChan d ch = some (round2 q) := by
      unfold cleanChan
      rw [hq]
    exact (Option.some.inj (h2.symm.trans h1)).symm
  · unfold get_readings
    have hf : List.filter
        (matchesQuery (some (pyUpper (pyStrip e0))) Option.none Option.none)
        (s.rows ++ [c]) = [c] := by
      rw [List.filter_append]
      have h1 : List.filter
          (matchesQuery (some (pyUpper (pyStrip e0))) Option.none Option.none)
          s.rows = [] := by
        rw [List.filter_eq_nil_iff]
        intro x hx
        simp [matchesQuery, if_neg hNE]
        exact hfresh x hx
      have h2 : List.filter
          (matchesQuery (some (pyUpper (pyStrip e0))) Option.none Option.none)
          [c] = [c] := by
        simp [matchesQuery, hNE, hkE]
      rw [h1, h2, List.nil_append]
    rw [hf]
    simp [sortDesc, insertDesc]

/-- Witness for C6: ingesting the lowercase-`equipo` example reading into an
empty store, then querying by `T101`. -/
theorem C6_witness :
    receive_reading store0 lcDict now0 = .stored ⟨store0.rows ++ [lcCleaned]⟩ ∧
    lcCleaned.equipo = pyUpper (pyStrip " t101 ") ∧
    lcCleaned.source = "CR310" ∧ lcCleaned.created_at = now0 ∧
    (∀ ch q, dictGet lcDict ch.name = some (PyVal.num q) →
      lcCleaned.chanVal ch = round2 q) ∧
    get_readings ⟨store0.rows ++ [lcCleaned]⟩ (some (pyUpper (pyStrip " t101 ")))
      Option.none Option.none 100 0 = ([lcCleaned], 1) :=
  C6_fresh_ingest_roundtrip store0 lcDict now0 " t101 " lcCleaned
    (by with_unfolding_all rfl) (by with_unfolding_all rfl)
    (by with_unfolding_all rfl) (by with_unfolding_all rfl)
    (by intro r hr; exact absurd hr (by simp [store0]))

/-! ## C8 -/

/-- C8: for every filter, every limit `L ∈ [1, 1000]` and every offset
`O ≥ 0`, the store query returns a page of at most `L` rows, and the returned
total equals the number of stored rows matching the filter, independent of
`L` and `O`. -/
theorem C8_store_query_pagination (s : Store) (equipo start_date end_date : Option String)
    (L O : ℕ) (hL1 : 1 ≤ L) (hL2 : L ≤ 1000) :
    (get_readings s equipo start_date end_date L O).1.length ≤ L ∧
    (get_readings s equipo start_date end_date L O).2 =
      (s.rows.filter (matchesQuery equipo start_date end_date)).length := by
  refine ⟨?_, rfl⟩
  unfold get_readings
  simp [List.length_take]

/-- Witness for C8 at a concrete store, filter, limit 1 and offset 0. -/
theorem C8_witness :
    (get_readings store0 Option.none Option.none Option.none 1 0).1.length ≤ 1 ∧
    (get_readings store0 Option.none Option.none Option.none 1 0).2 =
      (store0.rows.filter (matchesQuery Option.none Option.none Option.none)).length :=
  C8_store_query_pagination store0 Option.none Option.none Option.none 1 0
    (by decide) (by decide)

/-! ## C5 -/

/-- C5 counterexample: a query with `limit = 2000` is rejected by the routing
layer with a 422 parameter-validation failure; no clamped result page is
produced. -/
theorem C5_counterexample :
    get_readings_endpoint store0 Option.none Option.none Option.none 2000 0 =
      QueryOutcome.validationFailure 422 := by
  rfl

/-- C5 as amended: the query endpoint does not clamp; `limit` outside
`[1, 1000]` or `offset < 0` is rejected with a 422 parameter-validation
failure, while in-bounds values are delegated unmodified to the store query
and a result page is returned. -/
theorem C5_bounds_validated (s : Store) (equipo start_date end_date : Option String)
    (L O : ℤ) :
    (1 ≤ L → L ≤ 1000 → 0 ≤ O →
      get_readings_endpoint s equipo start_date end_date L O =
        QueryOutcome.ok (get_readings s equipo start_date end_date L.toNat O.toNat).1
          (get_readings s equipo start_date end_date L.toNat O.toNat).1.length
          (get_readings s equipo start_date end_date L.toNat O.toNat).2) ∧
    ((L < 1 ∨ 1000 < L ∨ O < 0) →
      get_readings_endpoint s equipo start_date end_date L O =
        QueryOutcome.validationFailure 422) := by
  constructor
  · intro h1 h2 h3
    unfold get_readings_endpoint
    have : (L < 1 || 1000 < L || O < 0) = false := by
      simp only [Bool.or_eq_false_iff, decide_eq_false_iff_not, not_lt]
      exact ⟨⟨h1, h2⟩, h3⟩
    rw [this]
    simp
  · intro h
    unfold get_readings_endpoint
    have : (L < 1 || 1000 < L || O < 0) = true := by
      rcases h with h | h | h <;> simp [h]
    rw [this]
    simp

/-- Witness for C5's amended theorem: in-bounds parameters reach the store
query. -/
theorem C5_witness :
    get_readings_endpoint store0 Option.none Option.none Option.none 100 0 =
      QueryOutcome.ok (get_readings store0 Option.none Option.none Option.none 100 0).1
        (get_readings store0 Option.none Option.none Option.none 100 0).1.length
        (get_readings store0 Option.none Option.none Option.none 100 0).2 :=
  (C5_bounds_validated store0 Option.none Option.none Option.none 100 0).1
    (by decide) (by decide) (by decide)

/-! ## C2 -/

/-- C2 counterexample: a reading whose RAW temperature channels span 30.001
(more than 30) is nevertheless stored, because the only consistency check
runs after normalization, on the rounded values (spread exactly 30).  The
claimed pre-normalization checkpoint does not exist. -/
theorem C2_counterexample :
    dictGet spreadDictC2 "Reaction_Temp" = some (PyVal.num 20.002) ∧
    dictGet spreadDictC2 "IZS_Temp" = some (PyVal.num 34.2) ∧
    dictGet spreadDictC2 "PMT_Temp" = some (PyVal.num 36.1) ∧
    dictGet spreadDictC2 "Box_Temp" = some (PyVal.num 33.7) ∧
    dictGet spreadDictC2 "Conv_Temp" = some (PyVal.num 50.003) ∧
    listMax [(20.002 : ℚ), 34.2, 36.1, 33.7, 50.003]
      - listMin [(20.002 : ℚ), 34.2, 36.1, 33.7, 50.003] > 30 ∧
    (∃ s2, receive_reading store0 spreadDictC2 now0 = Outcome.stored s2) :=
  ⟨by with_unfolding_all rfl, by with_unfolding_all rfl, by with_unfolding_all rfl,
   by with_unfolding_all rfl, by with_unfolding_all rfl, by with_unfolding_all decide,
   ⟨_, by with_unfolding_all rfl⟩⟩

/-- C2 as amended: the cross-field temperature-plausibility check is
performed at exactly one pipeline stage — after normalization, on the rounded
values of the cleaned record.  A validated, cleaned, fresh reading is stored
or rejected as inconsistent purely according to that post-normalization
check. -/
theorem C2_single_postnorm_check (s : Store) (d : Dict) (now : PyDateTime)
    (c : CleanedReading)
    (hv : validate_reading d (some (fun a b => is_duplicate s a b)) = Option.none)
    (hc : clean_reading d now = some c)
    (hk : hasKey s c.equipo c.timestamp = false) :
    receive_reading s d now =
      if remove_inconsistent_values c then Outcome.stored ⟨s.rows ++ [c]⟩
      else Outcome.rejected 400 "Inconsistent values detected in reading" := by
  by_cases hr : remove_inconsistent_values c
  · rw [if_pos hr]
    exact receive_of_parts hv hc hr hk
  · rw [if_neg hr]
    have hr2 : remove_inconsistent_values c = false := by simpa using hr
    unfold receive_reading
    simp [hv, hc, hr2]

/-- Witness for C2's amended theorem: a reading whose rounded spread exceeds
30 is rejected by the post-normalization check. -/
theorem C2_witness :
    receive_reading store0 spreadDictHigh now0 =
      (if remove_inconsistent_values spreadHighCleaned then
        Outcome.stored ⟨store0.rows ++ [spreadHighCleaned]⟩
      else Outcome.rejected 400 "Inconsistent values detected in reading") :=
  C2_single_postnorm_check store0 spreadDictHigh now0 spreadHighCleaned
    (by with_unfolding_all rfl) (by with_unfolding_all rfl)
    (by with_unfolding_all rfl)

/-! ## C7 -/

/-- C7 counterexample: a reading whose five raw temperature channels span
30.003 (strictly more than 30 units), each channel within [20, 60], is
stored rather than rejected — rounding brings the compared spread down to
exactly 30. -/
theorem C7_counterexample :
    dictGet spreadDictC7 "Reaction_Temp" = some (PyVal.num 20.001) ∧
    dictGet spreadDictC7 "IZS_Temp" = some (PyVal.num 34.2) ∧
    dictGet spreadDictC7 "PMT_Temp" = some (PyVal.num 36.1) ∧
    dictGet spreadDictC7 "Box_Temp" = some (PyVal.num 33.7) ∧
    dictGet spreadDictC7 "Conv_Temp" = some (PyVal.num 50.004) ∧
    listMax [(20.001 : ℚ), 34.2, 36.1, 33.7, 50.004]
      - listMin [(20.001 : ℚ), 34.2, 36.1, 33.7, 50.004] > 30 ∧
    ([(20.001 : ℚ), 34.2, 36.1, 33.7, 50.004].all
      (fun q => 20 ≤ q && q ≤ 60)) = true ∧
    (∃ s2, receive_reading store0 spreadDictC7 now0 = Outcome.stored s2) :=
  ⟨by with_unfolding_all rfl, by with_unfolding_all rfl, by with_unfolding_all rfl,
   by with_unfolding_all rfl, by with_unfolding_all rfl, by with_unfolding_all decide,
   by with_unfolding_all decide, ⟨_, by with_unfolding_all rfl⟩⟩

/-- C7 as amended: the 30-unit spread gate applies to the NORMALIZED
(rounded) temperature values of the cleaned record: a rounded spread
strictly above 30 is rejected with the inconsistency error (even when every
channel is within its own range), and a rounded spread of 30 or less passes
this check, so the fresh reading is stored. -/
theorem C7_rounded_spread_gate (s : Store) (d : Dict) (now : PyDateTime)
    (c : CleanedReading)
    (hv : validate_reading d (some (fun a b => is_duplicate s a b)) = Option.none)
    (hc : clean_reading d now = some c)
    (hk : hasKey s c.equipo c.timestamp = false) :
    (listMax [c.Reaction_Temp, c.IZS_Temp, c.PMT_Temp, c.Box_Temp, c.Conv_Temp]
        - listMin [c.Reaction_Temp, c.IZS_Temp, c.PMT_Temp, c.Box_Temp, c.Conv_Temp]
        > 30 →
      receive_reading s d now =
        Outcome.rejected 400 "Inconsistent values detected in reading") ∧
    (listMax [c.Reaction_Temp, c.IZS_Temp, c.PMT_Temp, c.Box_Temp, c.Conv_Temp]
        - listMin [c.Reaction_Temp, c.IZS_Temp, c.PMT_Temp, c.Box_Temp, c.Conv_Temp]
        ≤ 30 →
      receive_reading s d now = Outcome.stored ⟨s.rows ++ [c]⟩) := by
  constructor
  · intro hgt
    have hr : remove_inconsistent_values c = false := by
      unfold remove_inconsistent_values
      simp only [tempChans, List.map_cons, List.map_nil, CleanedReading.chanVal]
      exact decide_eq_false (not_le.mpr hgt)
    unfold receive_reading
    simp [hv, hc, hr]
  · intro hle
    have hr : remove_inconsistent_values c = true := by
      unfold remove_inconsistent_values
      simp only [tempChans, List.map_cons, List.map_nil, CleanedReading.chanVal]
      exact decide_eq_true hle
    exact receive_of_parts hv hc hr hk

/-- Witness for C7's amended theorem: a rounded spread of 30.01 is rejected
as inconsistent. -/
theorem C7_witness :
    receive_reading store0 spreadDictHigh now0 =
      Outcome.rejected 400 "Inconsistent values detected in reading" :=
  (C7_rounded_spread_gate store0 spreadDictHigh now0 spreadHighCleaned
    (by with_unfolding_all rfl) (by with_unfolding_all rfl)
    (by with_unfolding_all rfl)).1 (by with_unfolding_all decide)

/-! ## C9 -/

/-- C9: a boolean supplied for a declared-numeric channel passes the
structural numeric-type test (`isinstance(True, int)` holds), and an
otherwise-valid stored reading carries that channel as 1.0 or 0.0. -/
theorem C9_bool_channel (b : Bool) (d : Dict) (s : Store) (now : PyDateTime)
    (ch : Chan) (s2 : Store)
    (hb : dictGet d ch.name = some (PyVal.bool b))
    (hst : receive_reading s d now = .stored s2) :
    isNumericVal (PyVal.bool b) = true ∧
    ∃ c, clean_reading d now = some c ∧ s2 = ⟨s.rows ++ [c]⟩ ∧
      c.chanVal ch = (if b then 1 else 0) := by
  refine ⟨rfl, ?_⟩
  obtain ⟨hv, c, hc, hr, hk, hs2⟩ := receive_stored_inv hst
  obtain ⟨e, ts, he, ht, hp, heq, hts, hca, hsrc, hch⟩ := clean_some_inv hc
  refine ⟨c, hc, hs2, ?_⟩
  have h1 := hch ch
  have h2 : cleanChan d ch = some (round2 (if b then 1 else 0)) := by
    unfold cleanChan
    rw [hb]
  have h3 : c.chanVal ch = round2 (if b then 1 else 0) :=
    (Option.some.inj (h2.symm.trans h1)).symm
  rw [h3]
  cases b
  · with_unfolding_all decide
  · with_unfolding_all decide

/-- Witness for C9: `Pressure: true` is accepted and stored as 1.0. -/
theorem C9_witness :
    isNumericVal (PyVal.bool true) = true ∧
    ∃ c, clean_reading boolDict now0 = some c ∧
      Store.mk [boolCleaned] = ⟨store0.rows ++ [c]⟩ ∧
      c.chanVal Chan.Pressure = (if true then 1 else 0) :=
  C9_bool_channel true boolDict store0 now0 Chan.Pressure ⟨[boolCleaned]⟩
    (by with_unfolding_all rfl) (by with_unfolding_all rfl)

/-! ## C10 -/

/-- C10: the advisory pre-check queries the store with the raw `equipo`,
while records are stored canonically (trimmed + upper-cased); when the raw
`equipo` differs from its canonical form the advisory check reports no
duplicate, and a duplicate of such an input is caught only by the store's
unique-index insert. -/
theorem C10_raw_advisory_precheck (s : Store) (d : Dict) (e : String)
    (hinv : ∀ r ∈ s.rows, pyUpper (pyStrip r.equipo) = r.equipo)
    (he : dictGet d "equipo" = some (PyVal.str e))
    (hne : pyUpper (pyStrip e) ≠ e) :
    is_duplicate s (dictGet d "equipo") (dictGet d "timestamp") = false ∧
    ∀ now c, validate_reading d Option.none = Option.none →
      clean_reading d now = some c →
      remove_inconsistent_values c = true →
      hasKey s c.equipo c.timestamp = true →
      insert_reading s c = Option.none ∧
      receive_reading s d now = .rejected 400 "Duplicate reading detected" := by
  have hadv : is_duplicate s (dictGet d "equipo") (dictGet d "timestamp") = false := by
    unfold is_duplicate
    rw [List.any_eq_false]
    intro x hx
    rw [he]
    simp only [Bool.and_eq_true, beq_iff_eq, not_and]
    intro h1 _
    have h2 : x.equipo = e := by simpa using h1
    exact hne (by rw [← h2]; exact hinv x hx)
  refine ⟨hadv, ?_⟩
  intro now c hpre hc hr hkey
  have hins : insert_reading s c = Option.none := by
    unfold insert_reading
    simp [hkey]
  refine ⟨hins, ?_⟩
  have hval := validate_none_of_parts hpre
    (f := fun a b => is_duplicate s a b) hadv
  unfold receive_reading
  simp [hval, hc, hr, hins]

/-- Witness for C10: with `T101` already stored, ingesting `" t101 "` again
is missed by the advisory check and rejected only at the insert. -/
theorem C10_witness :
    is_duplicate storeC10 (dictGet lcDict "equipo") (dictGet lcDict "timestamp")
      = false ∧
    (insert_reading storeC10 lcCleaned1 = Option.none ∧
      receive_reading storeC10 lcDict now1 =
        .rejected 400 "Duplicate reading detected") :=
  ⟨(C10_raw_advisory_precheck storeC10 lcDict " t101 "
      (by intro r hr; rw [List.mem_singleton.mp hr]; with_unfolding_all rfl)
      (by with_unfolding_all rfl) (by with_unfolding_all decide)).1,
   (C10_raw_advisory_precheck storeC10 lcDict " t101 "
      (by intro r hr; rw [List.mem_singleton.mp hr]; with_unfolding_all rfl)
      (by with_unfolding_all rfl) (by with_unfolding_all decide)).2 now1 lcCleaned1
      (by with_unfolding_all rfl) (by with_unfolding_all rfl)
      (by with_unfolding_all rfl) (by with_unfolding_all rfl)⟩

/-! ## C3 -/

lemma chan_mem_chanList (ch : Chan) : ch ∈ chanList := by
  cases ch <;> simp [chanList]

set_option maxRecDepth 8000 in
/-- C3 counterexample: a structurally well-typed reading with `SO2_ppb = -1`
(strictly below its Range Table bound 0) is rejected not with the
`field=value (valid: min-max)` message of `validate_ranges` but by the
pydantic model's `ge=0` constraint, whose message contains no
`(valid: ...)` part at all. -/
theorem C3_counterexample :
    receive_reading store0 negDict now0 = Outcome.rejected 400
      ("Validation error: 1 validation error for CR310Reading\nSO2_ppb\n  ensure this value is greater than or equal to 0 (type=value_error.number.not_ge; limit_value=0)") ∧
    (("Validation error: 1 validation error for CR310Reading\nSO2_ppb\n  ensure this value is greater than or equal to 0 (type=value_error.number.not_ge; limit_value=0)").splitOn
      "(valid:").length = 1 :=
  ⟨by with_unfolding_all rfl, by with_unfolding_all rfl⟩

/-- C3 as amended: for readings that pass the model validation (so in
particular no `ge=0`-constrained channel is negative), every channel strictly
outside its Range Table bound is rejected with one combined
`Values out of range:` message whose items have the form
`field=value (valid: min-max)`, and every violating channel appears in it;
negative values of `ge=0` channels are instead rejected earlier by the model
validation with a different message. -/
theorem C3_range_rejection (s : Store) (d : Dict) (now : PyDateTime)
    (r : CR310Reading)
    (hreq : validate_required_fields d = Option.none)
    (hstr : validate_json_structure d = Option.none)
    (hpk : CR310_parse d = .ok r)
    (hout : chanList.filter (chanOutOfRange r) ≠ []) :
    receive_reading s d now = .rejected 400
      ("Values out of range: " ++ String.intercalate ", "
        ((chanList.filter (chanOutOfRange r)).map
          (fun ch => rangeItem ch (r.chanVal ch)))) ∧
    ∀ ch, chanOutOfRange r ch = true →
      rangeItem ch (r.chanVal ch) ∈
        (chanList.filter (chanOutOfRange r)).map
          (fun ch2 => rangeItem ch2 (r.chanVal ch2)) := by
  have hmapne : (chanList.filter (chanOutOfRange r)).map
      (fun ch => rangeItem ch (r.chanVal ch)) ≠ [] := by
    simpa [List.map_eq_nil_iff] using hout
  have hrg : validate_ranges r = some ("Values out of range: "
      ++ String.intercalate ", " ((chanList.filter (chanOutOfRange r)).map
        (fun ch => rangeItem ch (r.chanVal ch)))) := by
    unfold validate_ranges
    rw [if_neg hmapne]
  have hval : validate_reading d (some (fun a b => is_duplicate s a b)) =
      some ("Values out of range: "
        ++ String.intercalate ", " ((chanList.filter (chanOutOfRange r)).map
          (fun ch => rangeItem ch (r.chanVal ch)))) := by
    unfold validate_reading
    simp [hreq, hstr, hpk, hrg]
  constructor
  · unfold receive_reading
    simp [hval]
  · intro ch hch
    exact List.mem_map_of_mem _ (List.mem_filter.mpr ⟨chan_mem_chanList ch, hch⟩)

/-- Witness for C3's amended theorem: `Reaction_Temp = 10` yields the
combined range message naming the field, value and bound. -/
theorem C3_witness :
    receive_reading store0 lowTempDict now0 = .rejected 400
      ("Values out of range: " ++ String.intercalate ", "
        ((chanList.filter (chanOutOfRange lowTempParsed)).map
          (fun ch => rangeItem ch (lowTempParsed.chanVal ch)))) :=
  (C3_range_rejection store0 lowTempDict now0 lowTempParsed
    (by with_unfolding_all rfl) (by with_unfolding_all rfl)
    (by with_unfolding_all rfl) (by with_unfolding_all decide)).1

/-! ## C4 -/

/-- C4 counterexample: the timestamp `"2025-1-02 18:30:00"` does not match
the exact zero-padded `YYYY-MM-DD HH:MM:SS` pattern, yet the reading is
stored — Python's `strptime` accepts non-zero-padded components. -/
theorem C4_counterexample :
    specExactPattern "2025-1-02 18:30:00" = false ∧
    dictGet oddTsDict "timestamp" = some (PyVal.str "2025-1-02 18:30:00") ∧
    (∃ s2, receive_reading store0 oddTsDict now0 = Outcome.stored s2) :=
  ⟨by with_unfolding_all rfl, by with_unfolding_all rfl,
   ⟨_, by with_unfolding_all rfl⟩⟩

/-- C4 as amended: a reading is accepted only if `strptime` with format
`%Y-%m-%d %H:%M:%S` parses its timestamp (4-digit year; month, day, hour,
minute and second possibly non-zero-padded; a whitespace run between date and
time; calendar-valid date; seconds at most 59), and every timestamp failing
that parse is rejected with an invalid-format validation error naming the
expected format. -/
theorem C4_strptime_gate (s : Store) (d : Dict) (now : PyDateTime) (ts : String)
    (hts : dictGet d "timestamp" = some (PyVal.str ts))
    (hfail : strptimeYmdHMS ts = Option.none)
    (hreq : validate_required_fields d = Option.none)
    (hstr : validate_json_structure d = Option.none) :
    receive_reading s d now =
      .rejected 400 ("Validation error: " ++ renderErrors (pydErrors d)) ∧
    ("timestamp", "timestamp must be in format: YYYY-MM-DD HH:MM:SS", "value_error")
      ∈ pydErrors d := by
  have htf : fieldTimestamp (dictGet d "timestamp") =
      .error ("timestamp must be in format: YYYY-MM-DD HH:MM:SS", "value_error") := by
    rw [hts]
    simp [fieldTimestamp, pydStr, hfail]
  have hpk : CR310_parse d = .error (renderErrors (pydErrors d)) := by
    unfold CR310_parse
    split
    · have hEq : ∃ x, fieldTimestamp (dictGet d "timestamp") = Except.ok x :=
        ⟨_, by assumption⟩
      obtain ⟨x, hx⟩ := hEq
      rw [htf] at hx
      exact Except.noConfusion hx
    · rfl
  have hval : validate_reading d (some (fun a b => is_duplicate s a b)) =
      some ("Validation error: " ++ renderErrors (pydErrors d)) := by
    unfold validate_reading
    simp [hreq, hstr, hpk]
  constructor
  · unfold receive_reading
    simp [hval]
  · unfold pydErrors
    refine List.mem_append_right _ ?_
    rw [htf]
    simp [collectErr]

/-- Witness for C4's amended theorem: `"27/10/2025"` fails the parse and is
rejected with the format error. -/
theorem C4_witness :
    receive_reading store0 badTsDict now0 =
      .rejected 400 ("Validation error: " ++ renderErrors (pydErrors badTsDict)) :=
  (C4_strptime_gate store0 badTsDict now0 "27/10/2025"
    (by with_unfolding_all rfl) (by with_unfolding_all rfl)
    (by with_unfolding_all rfl) (by with_unfolding_all rfl)).1

end AirQ
